import Mathlib

/-
Verification of the Node.js compatibility-mode resolver of workers-sdk
(`getNodeCompat` and its helpers). The TypeScript source is embedded
shallowly: flag lists become `List String`, the JavaScript string
comparison used on compatibility dates becomes a lexicographic Boolean
comparison on character lists, and the closure-with-mutation flag objects
become explicit value passing (the single `impliedByAfterDate` call site is
straight-line code, so the mutation amounts to one functional update).
-/

namespace NodeCompat

/-- Lexicographic comparison `a <= b` on character lists by code point,
mirroring how JavaScript compares strings (identical on the ASCII date and
flag strings this module handles). -/
def charListLe : List Char → List Char → Bool
  | [], _ => true
  | _ :: _, [] => false
  | a :: as, b :: bs =>
    if a.toNat < b.toNat then true
    else if b.toNat < a.toNat then false
    else charListLe as bs

/-- Embedding of the JavaScript string comparison `a <= b`. -/
def jsLe (a b : String) : Bool := charListLe a.data b.data

/-- Embedding of the JavaScript string comparison `a >= b`, the operator used
in `impliedByAfterDate` (`date >= this.compatibilityDate`). -/
def jsGe (a b : String) : Bool := jsLe b a

/-- The non-null members of `NodeJSCompatMode`; the source's `null` member is
rendered as `Option.none` over this type. -/
inductive NodeJSCompatMode where
  | legacy
  | als
  | v1
  | v2
deriving DecidableEq, Repr

/-- A flag object as produced by `Flags.get`: its resolved Boolean `value`.
The `impliedByAfterDate` method is embedded as `Flag.impliedByAfterDate`
below, returning the updated flag. -/
structure Flag where
  value : Bool
deriving DecidableEq, Repr

/-- Embedding of `Flags.get`: flag `name` is present when the token occurs in
the list and the token `"no_" ++ name` does not
(`this.flags.includes(name) && !this.flags.includes(noFlagName)`). -/
def Flags.get (flags : List String) (name : String) : Flag :=
  { value := flags.contains name && !(flags.contains ("no_" ++ name)) }

/-- Embedding of the `impliedByAfterDate` closure created by `Flags.get`:
`flag.value ||= other.value && date >= this.compatibilityDate`, returning the
updated flag.  Note the source compares `date >= this.compatibilityDate`,
with `date` the threshold argument and `this.compatibilityDate` the
user-supplied date. -/
def Flag.impliedByAfterDate (compatibilityDate : String) (flag other : Flag)
    (date : String) : Flag :=
  { value := flag.value || (other.value && jsGe date compatibilityDate) }

/-- Result record of `computeWorkerdCompatibilityFlags`. -/
structure WorkerdCompatibilityFlags where
  hasNodejsAlsFlag : Bool
  hasNodejsCompatFlag : Bool
  hasNodejsCompatV2Flag : Bool
  hasExperimentalNodejsCompatV2Flag : Bool
deriving DecidableEq, Repr

/-- Embedding of `computeWorkerdCompatibilityFlags`. -/
def computeWorkerdCompatibilityFlags (compatibilityFlags : List String)
    (compatibilityDate : String) : WorkerdCompatibilityFlags :=
  let nodejsCompatFlag := Flags.get compatibilityFlags "nodejs_compat"
  { hasNodejsAlsFlag := (Flags.get compatibilityFlags "nodejs_als").value
    hasNodejsCompatFlag := nodejsCompatFlag.value
    hasNodejsCompatV2Flag :=
      (Flag.impliedByAfterDate compatibilityDate
        (Flags.get compatibilityFlags "nodejs_compat_v2")
        nodejsCompatFlag "2024-09-23").value
    hasExperimentalNodejsCompatV2Flag :=
      compatibilityFlags.contains "experimental:nodejs_compat_v2" }

/-- Result record of `getNodeCompat`. -/
structure NodeCompatResult where
  mode : Option NodeJSCompatMode
  hasNodejsAlsFlag : Bool
  hasNodejsCompatFlag : Bool
  hasNodejsCompatV2Flag : Bool
  hasExperimentalNodejsCompatV2Flag : Bool
deriving DecidableEq, Repr

/-- Embedding of `getNodeCompat` with all arguments supplied
(`opts.nodeCompat` defaulting is reflected by passing the Boolean
directly). -/
def getNodeCompat (compatibilityDate : String)
    (compatibilityFlags : List String) (nodeCompat : Bool) : NodeCompatResult :=
  let f := computeWorkerdCompatibilityFlags compatibilityFlags compatibilityDate
  let legacy := nodeCompat
  let mode : Option NodeJSCompatMode :=
    if f.hasNodejsCompatV2Flag then some .v2
    else if f.hasNodejsCompatFlag then some .v1
    else if f.hasNodejsAlsFlag then some .als
    else if legacy then some .legacy
    else none
  { mode := mode
    hasNodejsAlsFlag := f.hasNodejsAlsFlag
    hasNodejsCompatFlag := f.hasNodejsCompatFlag
    hasNodejsCompatV2Flag := f.hasNodejsCompatV2Flag
    hasExperimentalNodejsCompatV2Flag := f.hasExperimentalNodejsCompatV2Flag }

/-- Embedding of a call to `getNodeCompat` with the `compatibilityDate`
argument absent: the parameter defaults to `"2000-01-01"`. -/
def getNodeCompatDefaultDate (compatibilityFlags : List String)
    (nodeCompat : Bool) : NodeCompatResult :=
  getNodeCompat "2000-01-01" compatibilityFlags nodeCompat

/-- Pure base-presence rule of the spec: the token occurs in the list and its
negation does not. -/
def baseFlagValue (flags : List String) (name : String) : Bool :=
  flags.contains name && !(flags.contains ("no_" ++ name))

/-- Pure two-step flag resolution described by the spec's design note: base
presence first, then a single implication hop for `nodejs_compat_v2` from
`nodejs_compat`, with the date condition exactly as used at the
`impliedByAfterDate` call site; no transitive implications. -/
def resolvedFlagPure (flags : List String) (compatibilityDate : String)
    (name : String) : Bool :=
  if name = "nodejs_compat_v2" then
    baseFlagValue flags name ||
      (baseFlagValue flags "nodejs_compat" && jsGe "2024-09-23" compatibilityDate)
  else
    baseFlagValue flags name

/-! Helper lemmas about the embedding. -/

/-- Resolved value of `nodejs_als` in the result of `getNodeCompat`. -/
lemma getNodeCompat_hasNodejsAlsFlag (d : String) (l : List String) (o : Bool) :
    (getNodeCompat d l o).hasNodejsAlsFlag
      = (l.contains "nodejs_als" && !(l.contains "no_nodejs_als")) := rfl

/-- Resolved value of `nodejs_compat` in the result of `getNodeCompat`. -/
lemma getNodeCompat_hasNodejsCompatFlag (d : String) (l : List String) (o : Bool) :
    (getNodeCompat d l o).hasNodejsCompatFlag
      = (l.contains "nodejs_compat" && !(l.contains "no_nodejs_compat")) := rfl

/-- Resolved value of `nodejs_compat_v2` in the result of `getNodeCompat`:
base presence, or the date-gated implication from `nodejs_compat`. -/
lemma getNodeCompat_hasNodejsCompatV2Flag (d : String) (l : List String) (o : Bool) :
    (getNodeCompat d l o).hasNodejsCompatV2Flag
      = ((l.contains "nodejs_compat_v2" && !(l.contains "no_nodejs_compat_v2"))
          || ((l.contains "nodejs_compat" && !(l.contains "no_nodejs_compat"))
              && jsGe "2024-09-23" d)) := rfl

/-- Mode selection of `getNodeCompat` as the if-chain over the resolved
flags. -/
lemma getNodeCompat_mode_shape (d : String) (l : List String) (o : Bool) :
    (getNodeCompat d l o).mode
      = (if (getNodeCompat d l o).hasNodejsCompatV2Flag then some NodeJSCompatMode.v2
         else if (getNodeCompat d l o).hasNodejsCompatFlag then some NodeJSCompatMode.v1
         else if (getNodeCompat d l o).hasNodejsAlsFlag then some NodeJSCompatMode.als
         else if o then some NodeJSCompatMode.legacy
         else none) := rfl

/-- Full unfolding of `getNodeCompat` into membership tests. -/
lemma getNodeCompat_shape (d : String) (l : List String) (o : Bool) :
    getNodeCompat d l o =
      { mode :=
          if ((l.contains "nodejs_compat_v2" && !(l.contains "no_nodejs_compat_v2"))
              || ((l.contains "nodejs_compat" && !(l.contains "no_nodejs_compat"))
                  && jsGe "2024-09-23" d)) then some NodeJSCompatMode.v2
          else if (l.contains "nodejs_compat" && !(l.contains "no_nodejs_compat")) then
            some NodeJSCompatMode.v1
          else if (l.contains "nodejs_als" && !(l.contains "no_nodejs_als")) then
            some NodeJSCompatMode.als
          else if o then some NodeJSCompatMode.legacy
          else none
        hasNodejsAlsFlag := l.contains "nodejs_als" && !(l.contains "no_nodejs_als")
        hasNodejsCompatFlag := l.contains "nodejs_compat" && !(l.contains "no_nodejs_compat")
        hasNodejsCompatV2Flag :=
          (l.contains "nodejs_compat_v2" && !(l.contains "no_nodejs_compat_v2"))
            || ((l.contains "nodejs_compat" && !(l.contains "no_nodejs_compat"))
                && jsGe "2024-09-23" d)
        hasExperimentalNodejsCompatV2Flag :=
          l.contains "experimental:nodejs_compat_v2" } := rfl

/-- Membership form of `List.contains` over strings. -/
lemma contains_eq_decide_mem (l : List String) (a : String) :
    l.contains a = decide (a ∈ l) := by
  by_cases h : a ∈ l <;> simp [h, List.elem_iff, List.contains]

/-- Consing a token whose name differs from `s` does not change membership
of `s`. -/
lemma contains_cons_ne (a s : String) (l : List String) (h : (s == a) = false) :
    (a :: l).contains s = l.contains s := by
  rw [List.contains_cons, h, Bool.false_or]

/-- Filtering by a predicate that holds at `s` does not change membership
of `s`. -/
lemma contains_filter_of_pos (l : List String) (p : String → Bool) (s : String)
    (hp : p s = true) : (l.filter p).contains s = l.contains s := by
  rw [contains_eq_decide_mem, contains_eq_decide_mem]
  by_cases h : s ∈ l
  · simp [List.mem_filter, h, hp]
  · simp [List.mem_filter, h]

/-- The result of `getNodeCompat` depends on the flag list only through
membership. -/
lemma getNodeCompat_congr_all (d : String) (o : Bool) (l l' : List String)
    (h : ∀ s : String, l.contains s = l'.contains s) :
    getNodeCompat d l o = getNodeCompat d l' o := by
  simp only [getNodeCompat, computeWorkerdCompatibilityFlags, Flags.get,
    Flag.impliedByAfterDate, h]

/-- The result of `getNodeCompat` depends only on membership of the seven
token strings it inspects. -/
lemma getNodeCompat_congr7 (d : String) (o : Bool) (l l' : List String)
    (h1 : l.contains "nodejs_als" = l'.contains "nodejs_als")
    (h2 : l.contains "no_nodejs_als" = l'.contains "no_nodejs_als")
    (h3 : l.contains "nodejs_compat" = l'.contains "nodejs_compat")
    (h4 : l.contains "no_nodejs_compat" = l'.contains "no_nodejs_compat")
    (h5 : l.contains "nodejs_compat_v2" = l'.contains "nodejs_compat_v2")
    (h6 : l.contains "no_nodejs_compat_v2" = l'.contains "no_nodejs_compat_v2")
    (h7 : l.contains "experimental:nodejs_compat_v2"
            = l'.contains "experimental:nodejs_compat_v2") :
    getNodeCompat d l o = getNodeCompat d l' o := by
  rw [getNodeCompat_shape, getNodeCompat_shape, h1, h2, h3, h4, h5, h6, h7]

/-- The mode (and the three nodejs flags) depend only on membership of the
six `nodejs_*` token strings, not on the experimental token. -/
lemma getNodeCompat_mode_congr6 (d : String) (o : Bool) (l l' : List String)
    (h1 : l.contains "nodejs_als" = l'.contains "nodejs_als")
    (h2 : l.contains "no_nodejs_als" = l'.contains "no_nodejs_als")
    (h3 : l.contains "nodejs_compat" = l'.contains "nodejs_compat")
    (h4 : l.contains "no_nodejs_compat" = l'.contains "no_nodejs_compat")
    (h5 : l.contains "nodejs_compat_v2" = l'.contains "nodejs_compat_v2")
    (h6 : l.contains "no_nodejs_compat_v2" = l'.contains "no_nodejs_compat_v2") :
    (getNodeCompat d l o).mode = (getNodeCompat d l' o).mode := by
  rw [getNodeCompat_shape, getNodeCompat_shape, h1, h2, h3, h4, h5, h6]

/-- A result mode of `legacy` forces all three resolved nodejs flags to be
false. -/
lemma mode_legacy_flags_false (d : String) (l : List String) (o : Bool)
    (hc : (getNodeCompat d l o).mode = some NodeJSCompatMode.legacy) :
    (getNodeCompat d l o).hasNodejsAlsFlag = false
      ∧ (getNodeCompat d l o).hasNodejsCompatFlag = false
      ∧ (getNodeCompat d l o).hasNodejsCompatV2Flag = false := by
  rw [getNodeCompat_mode_shape] at hc
  rcases hv2 : (getNodeCompat d l o).hasNodejsCompatV2Flag <;>
    rcases hv1 : (getNodeCompat d l o).hasNodejsCompatFlag <;>
    rcases hals : (getNodeCompat d l o).hasNodejsAlsFlag <;>
    simp_all

/-! Claim theorems. -/

/-- C1: the claim states that for a flag list containing `nodejs_compat`
(without its negation and without any v2 tokens) the mode is v2 exactly when
the compatibility date is lexicographically at least `"2024-09-23"`. The
code compares in the opposite direction: `impliedByAfterDate` evaluates
`date >= this.compatibilityDate` with `date` the fixed threshold, so the
implication fires when the user's date is at most the threshold. Evaluating
the embedded code: date `"2024-09-22"` yields mode v2 (the claim expects v1)
and date `"2024-09-24"` yields mode v1 (the claim expects v2), contradicting
both the claim and the doc comment of `getNodeCompat` in the source. -/
theorem date_gate_comparison_inverted :
    (getNodeCompat "2024-09-22" ["nodejs_compat"] false).mode = some NodeJSCompatMode.v2
  ∧ (getNodeCompat "2024-09-23" ["nodejs_compat"] false).mode = some NodeJSCompatMode.v2
  ∧ (getNodeCompat "2024-09-24" ["nodejs_compat"] false).mode = some NodeJSCompatMode.v1 := by
  refine ⟨by decide, by decide, by decide⟩

/-- C2: the absent compatibility date does default to `"2000-01-01"`, but
under that default the date-gated implication is NOT inactive in the code:
because the comparison is inverted (`"2024-09-23" >= "2000-01-01"` holds),
`nodejs_compat` alone already promotes the mode to v2, where the claim says
the result is v1 and never v2. -/
theorem default_date_still_promotes_v2 :
    (∀ (l : List String) (o : Bool),
        getNodeCompatDefaultDate l o = getNodeCompat "2000-01-01" l o)
  ∧ (getNodeCompatDefaultDate ["nodejs_compat"] false).mode = some NodeJSCompatMode.v2 :=
  ⟨fun _ _ => rfl, by decide⟩

/-- C3 counterexample: a list containing both `nodejs_compat_v2` and
`no_nodejs_compat_v2` nevertheless resolves `nodejs_compat_v2` to true,
because the `impliedByAfterDate` disjunction is applied after the negation
rule: `nodejs_compat` is present and the date condition holds, overriding
the negated base value. This refutes the claim that negation wins
universally. -/
theorem negation_override_counterexample :
    ((["nodejs_compat", "nodejs_compat_v2", "no_nodejs_compat_v2"] : List String).contains
        "nodejs_compat_v2" = true)
  ∧ ((["nodejs_compat", "nodejs_compat_v2", "no_nodejs_compat_v2"] : List String).contains
        "no_nodejs_compat_v2" = true)
  ∧ (getNodeCompat "2000-01-01"
        ["nodejs_compat", "nodejs_compat_v2", "no_nodejs_compat_v2"]
        false).hasNodejsCompatV2Flag = true := by
  refine ⟨by decide, by decide, by decide⟩

/-- C3 amended: negation wins for the base rule. For `nodejs_als` and
`nodejs_compat` (which have no implication into them) the presence of the
negation token forces the resolved Boolean to false, for any date, ordering
and duplicates. For `nodejs_compat_v2` the presence of the negation token
zeroes the base value, leaving exactly the date-gated implication from
`nodejs_compat`. The claim's particular instance holds: a list with both
`nodejs_compat` and `no_nodejs_compat` never yields mode v1. -/
theorem negation_wins_amended (d : String) (l : List String) (o : Bool) :
    (l.contains "no_nodejs_als" = true → (getNodeCompat d l o).hasNodejsAlsFlag = false)
  ∧ (l.contains "no_nodejs_compat" = true →
      (getNodeCompat d l o).hasNodejsCompatFlag = false)
  ∧ (l.contains "no_nodejs_compat_v2" = true →
      (getNodeCompat d l o).hasNodejsCompatV2Flag
        = ((l.contains "nodejs_compat" && !(l.contains "no_nodejs_compat"))
            && jsGe "2024-09-23" d))
  ∧ (l.contains "nodejs_compat" = true → l.contains "no_nodejs_compat" = true →
      (getNodeCompat d l o).mode ≠ some NodeJSCompatMode.v1) := by
  refine ⟨?_, ?_, ?_, ?_⟩
  · intro h; rw [getNodeCompat_hasNodejsAlsFlag, h]; simp
  · intro h; rw [getNodeCompat_hasNodejsCompatFlag, h]; simp
  · intro h; rw [getNodeCompat_hasNodejsCompatV2Flag, h]; simp
  · intro h1 h2 hc
    have hf : (getNodeCompat d l o).hasNodejsCompatFlag = false := by
      rw [getNodeCompat_hasNodejsCompatFlag, h2]; simp
    rw [getNodeCompat_mode_shape] at hc
    rcases hv2 : (getNodeCompat d l o).hasNodejsCompatV2Flag <;>
      rcases hals : (getNodeCompat d l o).hasNodejsAlsFlag <;>
      rcases o <;> simp_all

/-- Witness for C3's amended theorem at a concrete input. -/
theorem negation_wins_amended_witness :
    ((["nodejs_compat", "no_nodejs_compat"] : List String).contains "nodejs_compat" = true)
  ∧ ((["nodejs_compat", "no_nodejs_compat"] : List String).contains "no_nodejs_compat" = true)
  ∧ (getNodeCompat "2024-09-23" ["nodejs_compat", "no_nodejs_compat"] false).mode
      ≠ some NodeJSCompatMode.v1 :=
  ⟨by decide, by decide,
   (negation_wins_amended "2024-09-23" ["nodejs_compat", "no_nodejs_compat"] false).2.2.2
     (by decide) (by decide)⟩

/-- C4: mode selection is the strict first-match priority chain over the
resolved flags (v2, then v1, then als, then legacy, then null); in
particular v2 beats als when both are present. -/
theorem mode_priority_first_match (d : String) (l : List String) (o : Bool) :
    (getNodeCompat d l o).mode
      = (if (getNodeCompat d l o).hasNodejsCompatV2Flag then some NodeJSCompatMode.v2
         else if (getNodeCompat d l o).hasNodejsCompatFlag then some NodeJSCompatMode.v1
         else if (getNodeCompat d l o).hasNodejsAlsFlag then some NodeJSCompatMode.als
         else if o then some NodeJSCompatMode.legacy
         else none)
  ∧ (getNodeCompat "2024-09-23" ["nodejs_compat_v2", "nodejs_als"] false).mode
      = some NodeJSCompatMode.v2 :=
  ⟨rfl, by decide⟩

/-- Witness for C4's theorem at a concrete input. -/
theorem mode_priority_first_match_witness :
    (getNodeCompat "2024-09-23" ["nodejs_als"] false).mode
      = (if (getNodeCompat "2024-09-23" ["nodejs_als"] false).hasNodejsCompatV2Flag then
           some NodeJSCompatMode.v2
         else if (getNodeCompat "2024-09-23" ["nodejs_als"] false).hasNodejsCompatFlag then
           some NodeJSCompatMode.v1
         else if (getNodeCompat "2024-09-23" ["nodejs_als"] false).hasNodejsAlsFlag then
           some NodeJSCompatMode.als
         else if false then some NodeJSCompatMode.legacy
         else none) :=
  (mode_priority_first_match "2024-09-23" ["nodejs_als"] false).1

/-- C5: with an empty flag list the mode is `legacy` exactly when the
`nodeCompat` option is set (else null), for every date; and whenever any of
the three resolved nodejs flags is true the mode is never `legacy`. -/
theorem legacy_fallback_only_when_nothing_else (d : String) :
    (getNodeCompat d [] true).mode = some NodeJSCompatMode.legacy
  ∧ (getNodeCompat d [] false).mode = none
  ∧ ∀ (l : List String) (o : Bool),
      ((getNodeCompat d l o).hasNodejsAlsFlag = true
        ∨ (getNodeCompat d l o).hasNodejsCompatFlag = true
        ∨ (getNodeCompat d l o).hasNodejsCompatV2Flag = true) →
      (getNodeCompat d l o).mode ≠ some NodeJSCompatMode.legacy := by
  refine ⟨rfl, rfl, ?_⟩
  intro l o h hc
  obtain ⟨ha, hb, hv⟩ := mode_legacy_flags_false d l o hc
  rcases h with h | h | h <;> simp_all

/-- Witness for C5's theorem at concrete inputs. -/
theorem legacy_fallback_only_when_nothing_else_witness :
    (getNodeCompat "2000-01-01" [] true).mode = some NodeJSCompatMode.legacy
  ∧ (getNodeCompat "2000-01-01" ["nodejs_als"] true).hasNodejsAlsFlag = true
  ∧ (getNodeCompat "2000-01-01" ["nodejs_als"] true).mode ≠ some NodeJSCompatMode.legacy :=
  ⟨(legacy_fallback_only_when_nothing_else "2000-01-01").1, by decide,
   (legacy_fallback_only_when_nothing_else "2000-01-01").2.2 ["nodejs_als"] true
     (Or.inl (by decide))⟩

/-- C6: the experimental token is inert for the mode: adding it (cons) or
removing it (filter) never changes the mode; the returned
`hasExperimentalNodejsCompatV2Flag` is exactly membership of the literal
string; and the token `no_experimental:nodejs_compat_v2` has no effect on any
output, whether added or removed. -/
theorem experimental_flag_inert (d : String) (l : List String) (o : Bool) :
    (getNodeCompat d ("experimental:nodejs_compat_v2" :: l) o).mode
      = (getNodeCompat d l o).mode
  ∧ (getNodeCompat d (l.filter fun s => !(s == "experimental:nodejs_compat_v2")) o).mode
      = (getNodeCompat d l o).mode
  ∧ (getNodeCompat d l o).hasExperimentalNodejsCompatV2Flag
      = l.contains "experimental:nodejs_compat_v2"
  ∧ getNodeCompat d ("no_experimental:nodejs_compat_v2" :: l) o = getNodeCompat d l o
  ∧ getNodeCompat d (l.filter fun s => !(s == "no_experimental:nodejs_compat_v2")) o
      = getNodeCompat d l o := by
  refine ⟨?_, ?_, rfl, ?_, ?_⟩
  · exact getNodeCompat_mode_congr6 d o _ l
      (contains_cons_ne _ _ l rfl) (contains_cons_ne _ _ l rfl)
      (contains_cons_ne _ _ l rfl) (contains_cons_ne _ _ l rfl)
      (contains_cons_ne _ _ l rfl) (contains_cons_ne _ _ l rfl)
  · exact getNodeCompat_mode_congr6 d o _ l
      (contains_filter_of_pos l _ _ rfl) (contains_filter_of_pos l _ _ rfl)
      (contains_filter_of_pos l _ _ rfl) (contains_filter_of_pos l _ _ rfl)
      (contains_filter_of_pos l _ _ rfl) (contains_filter_of_pos l _ _ rfl)
  · exact getNodeCompat_congr7 d o _ l
      (contains_cons_ne _ _ l rfl) (contains_cons_ne _ _ l rfl)
      (contains_cons_ne _ _ l rfl) (contains_cons_ne _ _ l rfl)
      (contains_cons_ne _ _ l rfl) (contains_cons_ne _ _ l rfl)
      (contains_cons_ne _ _ l rfl)
  · exact getNodeCompat_congr7 d o _ l
      (contains_filter_of_pos l _ _ rfl) (contains_filter_of_pos l _ _ rfl)
      (contains_filter_of_pos l _ _ rfl) (contains_filter_of_pos l _ _ rfl)
      (contains_filter_of_pos l _ _ rfl) (contains_filter_of_pos l _ _ rfl)
      (contains_filter_of_pos l _ _ rfl)

/-- Witness for C6's theorem at a concrete input. -/
theorem experimental_flag_inert_witness :
    (getNodeCompat "2024-09-23"
        ("experimental:nodejs_compat_v2" :: ["nodejs_als"]) false).mode
      = (getNodeCompat "2024-09-23" ["nodejs_als"] false).mode :=
  (experimental_flag_inert "2024-09-23" ["nodejs_als"] false).1

/-- C7: the whole result of `getNodeCompat` (mode and all four flag
Booleans) is unchanged by permuting the flag list or by duplicating any of
its tokens, for every date and `nodeCompat` option. -/
theorem result_perm_dup_invariant (d : String) (o : Bool) :
    (∀ l l' : List String, l.Perm l' → getNodeCompat d l o = getNodeCompat d l' o)
  ∧ (∀ (l₁ l₂ : List String) (x : String),
      getNodeCompat d (l₁ ++ x :: x :: l₂) o = getNodeCompat d (l₁ ++ x :: l₂) o) := by
  constructor
  · intro l l' hp
    refine getNodeCompat_congr_all d o l l' fun s => ?_
    rw [contains_eq_decide_mem, contains_eq_decide_mem, decide_eq_decide]
    exact hp.mem_iff
  · intro l₁ l₂ x
    refine getNodeCompat_congr_all d o _ _ fun s => ?_
    rw [contains_eq_decide_mem, contains_eq_decide_mem, decide_eq_decide]
    simp only [List.mem_append, List.mem_cons]
    tauto

/-- Witness for C7's theorem: a concrete transposition and a concrete
duplication. -/
theorem result_perm_dup_invariant_witness :
    getNodeCompat "2024-09-23" ["nodejs_als", "nodejs_compat"] false
      = getNodeCompat "2024-09-23" ["nodejs_compat", "nodejs_als"] false
  ∧ getNodeCompat "2024-09-23" (["nodejs_compat"] ++ "nodejs_als" :: "nodejs_als" :: []) false
      = getNodeCompat "2024-09-23" (["nodejs_compat"] ++ "nodejs_als" :: []) false :=
  ⟨(result_perm_dup_invariant "2024-09-23" false).1 _ _
      (List.Perm.swap "nodejs_compat" "nodejs_als" []),
   (result_perm_dup_invariant "2024-09-23" false).2 ["nodejs_compat"] [] "nodejs_als"⟩

/-- C8: totality: for every date string, flag list and option,
`getNodeCompat` produces a mode that is exactly one of the five values
(legacy, als, v1, v2, null); the embedding is a total function with no
failure variant, mirroring the exception-free source. -/
theorem mode_total_five_values (d : String) (l : List String) (o : Bool) :
    (getNodeCompat d l o).mode = some NodeJSCompatMode.legacy
  ∨ (getNodeCompat d l o).mode = some NodeJSCompatMode.als
  ∨ (getNodeCompat d l o).mode = some NodeJSCompatMode.v1
  ∨ (getNodeCompat d l o).mode = some NodeJSCompatMode.v2
  ∨ (getNodeCompat d l o).mode = none := by
  rcases h : (getNodeCompat d l o).mode with _ | m
  · simp
  · cases m <;> simp [h]

/-- Witness for C8's theorem at a concrete input. -/
theorem mode_total_five_values_witness :
    (getNodeCompat "2000-01-01" [] false).mode = some NodeJSCompatMode.legacy
  ∨ (getNodeCompat "2000-01-01" [] false).mode = some NodeJSCompatMode.als
  ∨ (getNodeCompat "2000-01-01" [] false).mode = some NodeJSCompatMode.v1
  ∨ (getNodeCompat "2000-01-01" [] false).mode = some NodeJSCompatMode.v2
  ∨ (getNodeCompat "2000-01-01" [] false).mode = none :=
  mode_total_five_values "2000-01-01" [] false

/-- C9: the closure-and-mutation implementation
(`computeWorkerdCompatibilityFlags` built from `Flags.get` and
`impliedByAfterDate`) is extensionally equal to the pure two-step
resolution `resolvedFlagPure`: base presence, plus the single wired
implication hop for `nodejs_compat_v2` with the date condition as used at
the call site, and nothing transitive. -/
theorem compute_flags_equals_pure_two_step (flags : List String) (d : String) :
    computeWorkerdCompatibilityFlags flags d =
      { hasNodejsAlsFlag := resolvedFlagPure flags d "nodejs_als"
        hasNodejsCompatFlag := resolvedFlagPure flags d "nodejs_compat"
        hasNodejsCompatV2Flag := resolvedFlagPure flags d "nodejs_compat_v2"
        hasExperimentalNodejsCompatV2Flag :=
          flags.contains "experimental:nodejs_compat_v2" } := rfl

/-- Witness for C9's theorem at a concrete input. -/
theorem compute_flags_equals_pure_two_step_witness :
    computeWorkerdCompatibilityFlags ["nodejs_compat"] "2024-09-23" =
      { hasNodejsAlsFlag := resolvedFlagPure ["nodejs_compat"] "2024-09-23" "nodejs_als"
        hasNodejsCompatFlag := resolvedFlagPure ["nodejs_compat"] "2024-09-23" "nodejs_compat"
        hasNodejsCompatV2Flag :=
          resolvedFlagPure ["nodejs_compat"] "2024-09-23" "nodejs_compat_v2"
        hasExperimentalNodejsCompatV2Flag :=
          (["nodejs_compat"] : List String).contains "experimental:nodejs_compat_v2" } :=
  compute_flags_equals_pure_two_step ["nodejs_compat"] "2024-09-23"

/-- C10: the returned flag Booleans are not made mutually exclusive with the
mode: whenever `nodejs_compat` is present without its negation the returned
`hasNodejsCompatFlag` is true, and there is a concrete input (default date,
list `[nodejs_compat]`) where the mode is v2 while both `hasNodejsCompatFlag`
and `hasNodejsCompatV2Flag` are true in the same result. -/
theorem flag_booleans_not_exclusive :
    (∀ (d : String) (l : List String) (o : Bool),
        l.contains "nodejs_compat" = true → l.contains "no_nodejs_compat" = false →
        (getNodeCompat d l o).hasNodejsCompatFlag = true)
  ∧ (getNodeCompat "2000-01-01" ["nodejs_compat"] false).mode = some NodeJSCompatMode.v2
  ∧ (getNodeCompat "2000-01-01" ["nodejs_compat"] false).hasNodejsCompatFlag = true
  ∧ (getNodeCompat "2000-01-01" ["nodejs_compat"] false).hasNodejsCompatV2Flag = true := by
  refine ⟨?_, by decide, by decide, by decide⟩
  intro d l o h1 h2
  rw [getNodeCompat_hasNodejsCompatFlag, h1, h2]
  rfl

/-- Witness for C10's theorem at a concrete input. -/
theorem flag_booleans_not_exclusive_witness :
    ((["nodejs_compat"] : List String).contains "nodejs_compat" = true)
  ∧ ((["nodejs_compat"] : List String).contains "no_nodejs_compat" = false)
  ∧ (getNodeCompat "2000-01-01" ["nodejs_compat"] false).hasNodejsCompatFlag = true :=
  ⟨by decide, by decide,
   flag_booleans_not_exclusive.1 "2000-01-01" ["nodejs_compat"] false
     (by decide) (by decide)⟩

end NodeCompat
